import Mathlib

/-!
Verification of the Extension Bridge Handshake and Session Daemon Protocol of the
patchwright-mcp repository. The repository ships the protocol as a dependency of its
test suite; the definitions below embed the protocol data model and operations, with
behavior pinned by the repository test file where the tests constrain it.
-/

namespace ExtensionBridge

/-- Substring containment: the pattern occurs inside the string. -/
def containsStr (s pat : String) : Prop :=
  ∃ front back : String, s = front ++ pat ++ back

/-- Modelled from the spec: the Protocol Version Gate (spec 4.4) is not under src/.
The extension must support a version at least equal to the protocol version the
server requests: an older extension is incompatible, a newer one is accepted. -/
def compatible (serverVersion extensionVersion : Int) : Bool :=
  serverVersion ≤ extensionVersion

/-- Which confirmation UI variant the extension must present (spec 3). -/
inductive Capability
  | directNavigate
  | tabSelect
  deriving DecidableEq

/-- Modelled from the spec: the ConnectionRequest record (spec 3); the engine that
consumes it is not under src/. -/
structure ConnectionRequest where
  requestedCapability : Capability
  targetUrl : Option String
  protocolVersion : Int
  authToken : Option String
  deriving DecidableEq

/-- Modelled from the spec: the extension side of the handshake (spec 4.3, 6) is not
under src/. The extension knows its own protocol version and which tokens it accepts. -/
structure ExtensionState where
  extensionVersion : Int
  validTokens : List String
  deriving DecidableEq

/-- The definitive signal the engine may receive from the human while waiting
(spec 4.3 step 3): Allow (or tab chosen), Reject, or nothing before the timeout. -/
inductive UserSignal
  | allow
  | reject
  | noResponse
  deriving DecidableEq

/-- A UI element rendered on the confirmation page. -/
inductive UIElement
  | allowRejectDialog (targetUrl : Option String)
  | tabChooserDialog
  | versionBanner (text : String)
  deriving DecidableEq

/-- Whether a UI element is the Allow/Reject confirmation dialog. -/
def UIElement.isAllowReject : UIElement → Bool
  | .allowRejectDialog _ => true
  | _ => false

/-- Whether a UI element is the tab chooser dialog. -/
def UIElement.isTabChooser : UIElement → Bool
  | .tabChooserDialog => true
  | _ => false

/-- The confirmation page opened by the engine: its URL and the dialogs it renders. -/
structure ConfirmationPage where
  url : String
  dialogs : List UIElement
  deriving DecidableEq

/-- Modelled from the spec: the terminal result of a ConnectionRequest (spec 3). -/
inductive HandshakeOutcome
  | Connected (channelRef : Nat)
  | Rejected
  | TimedOut
  | VersionIncompatible (requiredExtensionVersion : Int)
  deriving DecidableEq

/-- Whether an outcome is a successful connection. -/
def HandshakeOutcome.isConnected : HandshakeOutcome → Bool
  | .Connected _ => true
  | _ => false

/-- Whether an outcome is the distinct version-incompatibility resolution. -/
def HandshakeOutcome.isVersionIncompatible : HandshakeOutcome → Bool
  | .VersionIncompatible _ => true
  | _ => false

/-- Everything observable about one run of the handshake engine: the outcome, the
user-facing error text if any, the confirmation page, and the pages of the browser
context when the confirmation page appears and after the outcome is returned. -/
structure HandshakeResult where
  outcome : HandshakeOutcome
  errorText : Option String
  page : ConfirmationPage
  contextAtConfirmation : List String
  contextAfter : List String
  deriving DecidableEq

/-- The reserved extension endpoint at which every confirmation page opens, pinned by
the repository tests (src/unnamed/part_000, lines 198, 257, 349, 393). -/
def connectEndpoint : String :=
  "chrome-extension://jakfalbnbhgkpmoaakfflhflbfpkailf/connect.html"

/-- The user-facing timeout message, pinned by the repository test
`extension not installed timeout` (src/unnamed/part_000, line 264). -/
def timeoutMessage : String :=
  "Extension connection timeout. Make sure the \"Playwright MCP Bridge\" extension is installed."

/-- The status banner shown at a protocol version mismatch, pinned by the repository
test `extension needs update` (src/unnamed/part_000, line 316). -/
def versionBannerText : String :=
  "Playwright MCP version trying to connect requires newer extension version"

/-- Modelled from the spec: the message surfaced when the user declines (spec 7). -/
def rejectedMessage : String :=
  "Connection rejected by the user."

/-- Query-parameter name of each capability. -/
def capabilityName : Capability → String
  | .directNavigate => "direct-navigate"
  | .tabSelect => "tab-select"

/-- Query fragment carrying the optional auth token. -/
def tokenPart : Option String → String
  | some tok => "&token=" ++ tok
  | none => ""

/-- Modelled from the spec: the handshake parameters carried as query parameters of
the confirmation page URL (spec 4.3 step 1, spec 6). -/
def queryString (req : ConnectionRequest) : String :=
  "protocolVersion=" ++ toString req.protocolVersion ++ "&capability=" ++
    capabilityName req.requestedCapability ++ tokenPart req.authToken

/-- Modelled from the spec: whether the extension validates the supplied token and
approves without a human-facing dialog (spec 4.3 step 2); not under src/. -/
def tokenBypass (req : ConnectionRequest) (ext : ExtensionState) : Bool :=
  match req.authToken with
  | some tok => ext.validTokens.contains tok
  | none => false

/-- Modelled from the spec: the Bridge Handshake Engine (spec 4.3) is not under src/.
The engine opens the confirmation page at the reserved endpoint, lets the extension
auto-approve on a valid token, otherwise renders the UI variant selected by the
requested capability and waits for Allow, Reject or the timeout. At a protocol
version mismatch it follows the repository test `extension needs update`
(src/unnamed/part_000, lines 297 to 322): the extension shows a status banner
instead of the approval dialog, never approves, and the request ends with the
connection timeout error. The confirmation page is added to the browser context and
kept open, as observed by the test `snapshot of an existing page`
(src/unnamed/part_000, lines 215 to 247). -/
def runHandshake (req : ConnectionRequest) (ext : ExtensionState) (user : UserSignal)
    (ctx : List String) : HandshakeResult :=
  let url := connectEndpoint ++ "?" ++ queryString req
  let ctxAt := ctx ++ [url]
  if compatible req.protocolVersion ext.extensionVersion then
    if tokenBypass req ext then
      { outcome := .Connected 0
        errorText := none
        page := { url := url, dialogs := [] }
        contextAtConfirmation := ctxAt
        contextAfter := ctxAt }
    else
      let dialog : UIElement :=
        match req.requestedCapability with
        | .directNavigate => .allowRejectDialog req.targetUrl
        | .tabSelect => .tabChooserDialog
      match user with
      | .allow =>
        { outcome := .Connected 0
          errorText := none
          page := { url := url, dialogs := [dialog] }
          contextAtConfirmation := ctxAt
          contextAfter := ctxAt }
      | .reject =>
        { outcome := .Rejected
          errorText := some rejectedMessage
          page := { url := url, dialogs := [dialog] }
          contextAtConfirmation := ctxAt
          contextAfter := ctxAt }
      | .noResponse =>
        { outcome := .TimedOut
          errorText := some timeoutMessage
          page := { url := url, dialogs := [dialog] }
          contextAtConfirmation := ctxAt
          contextAfter := ctxAt }
  else
    { outcome := .TimedOut
      errorText := some timeoutMessage
      page := { url := url, dialogs := [.versionBanner versionBannerText] }
      contextAtConfirmation := ctxAt
      contextAfter := ctxAt }

/-- One invocation of the CLI front end: exit code, output stream, error stream and
the confirmation page opened on the way. -/
structure CliRun where
  exitCode : Nat
  stdoutText : String
  stderrText : String
  page : ConfirmationPage
  deriving DecidableEq

/-- Modelled from the spec: the CLI front end (spec 2, spec 6) is not under src/.
The open action runs one handshake; exit code 0 and a page report on a Connected
outcome, exit code 1 and the failure message on the error stream otherwise. -/
def runOpenCli (req : ConnectionRequest) (ext : ExtensionState) (user : UserSignal)
    (ctx : List String) : CliRun :=
  let r := runHandshake req ext user ctx
  if r.outcome.isConnected then
    { exitCode := 0
      stdoutText := "### Page"
      stderrText := ""
      page := r.page }
  else
    { exitCode := 1
      stdoutText := ""
      stderrText := r.errorText.getD ("")
      page := r.page }

/-- Modelled from the spec: a Session of the Session Registry (spec 3); the registry
is not under src/. -/
structure Session where
  sessionId : String
  userDataDirPath : String
  socketPath : String
  daemonHandle : Nat
  browserChannel : String
  deriving DecidableEq

/-- Modelled from the spec: the state the Session Registry operates on (spec 4.1):
the known sessions, the set of live daemon processes, the socket files on disk, a
fresh process handle supply, and a count of daemon processes spawned so far. -/
structure RegistryState where
  sessions : List Session
  liveDaemons : List Nat
  socketFiles : List String
  nextHandle : Nat
  spawnCount : Nat
  deriving DecidableEq

/-- Stable session identifier derived from the browser channel and profile (spec 3). -/
def sessionIdFor (browserChannel userDataDirPath : String) : String :=
  browserChannel ++ "-" ++ userDataDirPath

/-- Socket path computed from the session identifier (spec 6). -/
def socketPathFor (sessionId : String) : String :=
  sessionId ++ ".sock"

/-- Whether an existing session matches the requested browser identity and is owned
by a daemon that is still alive (spec 4.1). -/
def matchesLive (st : RegistryState) (browserChannel userDataDirPath : String)
    (s : Session) : Bool :=
  s.browserChannel == browserChannel && s.userDataDirPath == userDataDirPath &&
    st.liveDaemons.contains s.daemonHandle

/-- Lookup of a session owned by a live daemon for the given browser identity. -/
def findLive (st : RegistryState) (browserChannel userDataDirPath : String) :
    Option Session :=
  st.sessions.find? (matchesLive st browserChannel userDataDirPath)

/-- Modelled from the spec: findOrCreate of the Session Registry (spec 4.1) is not
under src/. If a live daemon already owns a matching session it is returned
unchanged; otherwise any stale socket file at the computed path is removed, a new
daemon is spawned, and the new session is recorded. -/
def findOrCreate (st : RegistryState) (browserChannel userDataDirPath : String) :
    Session × RegistryState :=
  match findLive st browserChannel userDataDirPath with
  | some s => (s, st)
  | none =>
    let sid := sessionIdFor browserChannel userDataDirPath
    let sock := socketPathFor sid
    let h := st.nextHandle
    let s : Session :=
      { sessionId := sid
        userDataDirPath := userDataDirPath
        socketPath := sock
        daemonHandle := h
        browserChannel := browserChannel }
    (s,
      { sessions := s :: st.sessions
        liveDaemons := h :: st.liveDaemons
        socketFiles := sock :: st.socketFiles.erase sock
        nextHandle := h + 1
        spawnCount := st.spawnCount + 1 })

/-- Health of the daemon owning one entry of the session directory. -/
inductive DaemonStatus
  | live
  | unresponsive
  | dead
  deriving DecidableEq

/-- One entry of the session directory, as seen by stopAll. -/
structure SessionEntry where
  sessionId : String
  status : DaemonStatus
  deriving DecidableEq

/-- What stopping one session produced: the final daemon state, whether its socket
file was removed, and the collected failure if the daemon was unresponsive. -/
structure StopReport where
  sessionId : String
  finalStatus : DaemonStatus
  socketRemoved : Bool
  failure : Option String
  deriving DecidableEq

/-- Modelled from the spec: stop of the Session Registry (spec 4.1) is not under
src/. A live daemon is asked to stop; an unresponsive daemon is force-terminated
and the failure collected; a dead daemon (stale socket) has its socket file removed
without raising. In every case the socket file ends up removed. -/
def stopOne (e : SessionEntry) : StopReport :=
  match e.status with
  | .live =>
    { sessionId := e.sessionId
      finalStatus := .dead
      socketRemoved := true
      failure := none }
  | .unresponsive =>
    { sessionId := e.sessionId
      finalStatus := .dead
      socketRemoved := true
      failure := some ("daemon unresponsive: " ++ e.sessionId) }
  | .dead =>
    { sessionId := e.sessionId
      finalStatus := .dead
      socketRemoved := true
      failure := none }

/-- Modelled from the spec: stopAll of the Session Registry (spec 4.1) is not under
src/. Every entry of the session directory is processed; per-session failures are
collected and reported in aggregate after all attempts complete. -/
def stopAll (entries : List SessionEntry) : List StopReport × List String :=
  let reports := entries.map stopOne
  (reports, reports.filterMap (fun r => r.failure))

/-- Concrete request used as the counterexample input of C2: a valid token together
with a protocol version the extension does not support. -/
def tokenMismatchReq : ConnectionRequest :=
  { requestedCapability := .directNavigate
    targetUrl := some ("http://localhost/hello-world")
    protocolVersion := 1000
    authToken := some ("secret-token") }

/-- Concrete extension state used as the counterexample input of C2: it accepts the
token but only supports protocol version 1. -/
def tokenMismatchExt : ExtensionState :=
  { extensionVersion := 1
    validTokens := ["secret-token"] }

/-- Concrete request used in the witness of C2: a valid token at a compatible
protocol version. -/
def tokenOkReq : ConnectionRequest :=
  { requestedCapability := .directNavigate
    targetUrl := some ("http://localhost/hello-world")
    protocolVersion := 1
    authToken := some ("secret-token") }

/-- Concrete extension state used in the witness of C2 and several other witnesses:
it accepts the token and supports protocol version 1. -/
def tokenOkExt : ExtensionState :=
  { extensionVersion := 1
    validTokens := ["secret-token"] }

/-- Concrete tokenless request used in witnesses: a direct navigation at a
compatible protocol version. -/
def plainNavReq : ConnectionRequest :=
  { requestedCapability := .directNavigate
    targetUrl := some ("http://localhost/hello-world")
    protocolVersion := 1
    authToken := none }

/-- Concrete tokenless tab-select request used in witnesses. -/
def tabSelectReq : ConnectionRequest :=
  { requestedCapability := .tabSelect
    targetUrl := none
    protocolVersion := 1
    authToken := none }

/-- Concrete extension state used in witnesses: no tokens, protocol version 1. -/
def plainExt : ExtensionState :=
  { extensionVersion := 1
    validTokens := [] }

/-- Concrete request used as the counterexample input of C4: the repository test
`extension needs update` overrides the protocol version to 1000. -/
def mismatchReq : ConnectionRequest :=
  { requestedCapability := .directNavigate
    targetUrl := some ("http://localhost/hello-world")
    protocolVersion := 1000
    authToken := none }

/-- Concrete session-directory entries used in the witness of C7. -/
def staleEntry : SessionEntry :=
  { sessionId := "session-b", status := .dead }

/-- Live entries surrounding the stale entry in the witness of C7. -/
def liveEntriesFront : List SessionEntry :=
  [{ sessionId := "session-a", status := .live }]

/-- Unresponsive entry following the stale entry in the witness of C7. -/
def liveEntriesBack : List SessionEntry :=
  [{ sessionId := "session-c", status := .unresponsive }]

/-- C1: the Protocol Version Gate returns true exactly when the extension version is
at least the server version, and false exactly when the extension version is older;
as a plain function of its two integer arguments it has no side effects. -/
theorem compatible_gate (serverVersion extensionVersion : Int) :
    (compatible serverVersion extensionVersion = true ↔
      serverVersion ≤ extensionVersion) ∧
    (compatible serverVersion extensionVersion = false ↔
      extensionVersion < serverVersion) := by
  unfold compatible
  constructor
  · simp
  · simp [Int.not_le]

/-- Witness for C1: the gate evaluated at concrete versions, equal, newer and older. -/
theorem compatible_gate_witness :
    (compatible 3 5 = true ↔ (3 : Int) ≤ 5) ∧
    (compatible 3 5 = false ↔ (5 : Int) < 3) := compatible_gate 3 5

/-- Counterexample to C2 as stated: this request carries a token the extension
accepts, yet the handshake does not resolve as Connected, because the protocol
version 1000 exceeds what the extension supports and the version gate blocks the
connection before the token can take effect. -/
theorem token_not_always_connected :
    tokenBypass tokenMismatchReq tokenMismatchExt = true ∧
    (runHandshake tokenMismatchReq tokenMismatchExt .noResponse []).outcome.isConnected
      = false ∧
    (runHandshake tokenMismatchReq tokenMismatchExt .noResponse []).outcome
      = .TimedOut := by
  refine ⟨by decide, by decide, by decide⟩

/-- C2 (amended): for every ConnectionRequest carrying an authToken the extension
accepts, provided the protocol versions are compatible, the handshake resolves as
Connected with no human-facing dialog rendered, for every value of the user signal
(so no Allow or Reject is required or awaited). -/
theorem token_bypass_connects (req : ConnectionRequest) (ext : ExtensionState)
    (user : UserSignal) (ctx : List String)
    (htok : tokenBypass req ext = true)
    (hver : compatible req.protocolVersion ext.extensionVersion = true) :
    (runHandshake req ext user ctx).outcome = .Connected 0 ∧
    (runHandshake req ext user ctx).page.dialogs = [] := by
  unfold runHandshake
  simp [hver, htok]

/-- Witness for C2: a concrete accepted token at a compatible version connects with
no dialog and no user signal. -/
theorem token_bypass_connects_witness :
    tokenBypass tokenOkReq tokenOkExt = true ∧
    compatible tokenOkReq.protocolVersion tokenOkExt.extensionVersion = true ∧
    ((runHandshake tokenOkReq tokenOkExt .noResponse []).outcome = .Connected 0 ∧
      (runHandshake tokenOkReq tokenOkExt .noResponse []).page.dialogs = []) :=
  ⟨by decide, by decide,
    token_bypass_connects tokenOkReq tokenOkExt .noResponse [] (by decide) (by decide)⟩

/-- C3: whenever no token bypass applies and neither an Allow nor a Reject signal
arrives before the connection timeout elapses, the outcome is TimedOut and the
user-facing error text is the literal message, which contains the extension name,
the phrase naming the timeout, and the instruction that the extension is to be
installed. -/
theorem timeout_outcome (req : ConnectionRequest) (ext : ExtensionState)
    (ctx : List String) (hbypass : tokenBypass req ext = false) :
    (runHandshake req ext .noResponse ctx).outcome = .TimedOut ∧
    (runHandshake req ext .noResponse ctx).errorText = some timeoutMessage ∧
    containsStr timeoutMessage ("Playwright MCP Bridge") ∧
    containsStr timeoutMessage ("connection timeout") ∧
    containsStr timeoutMessage ("extension is installed") := by
  refine ⟨?_, ?_,
    ⟨"Extension connection timeout. Make sure the \"", "\" extension is installed.", by rfl⟩,
    ⟨"Extension ", ". Make sure the \"Playwright MCP Bridge\" extension is installed.", by rfl⟩,
    ⟨"Extension connection timeout. Make sure the \"Playwright MCP Bridge\" ", ".", by rfl⟩⟩ <;>
  · unfold runHandshake
    cases hver : compatible req.protocolVersion ext.extensionVersion <;>
      simp [hver, hbypass]

/-- Witness for C3: a concrete tokenless handshake with no user signal times out
with the documented message. -/
theorem timeout_outcome_witness :
    tokenBypass plainNavReq plainExt = false ∧
    ((runHandshake plainNavReq plainExt .noResponse []).outcome = .TimedOut ∧
      (runHandshake plainNavReq plainExt .noResponse []).errorText
        = some timeoutMessage ∧
      containsStr timeoutMessage ("Playwright MCP Bridge") ∧
      containsStr timeoutMessage ("connection timeout") ∧
      containsStr timeoutMessage ("extension is installed")) :=
  ⟨by decide, timeout_outcome plainNavReq plainExt [] (by decide)⟩

/-- Counterexample to C4 as stated: at the protocol version override of 1000 used by
the repository test `extension needs update`, with a user who would approve, the
handshake does not resolve as the distinct VersionIncompatible outcome; it resolves
as TimedOut, the connection timeout error observed by that test. -/
theorem mismatch_not_version_incompatible :
    compatible mismatchReq.protocolVersion plainExt.extensionVersion = false ∧
    (runHandshake mismatchReq plainExt .allow []).outcome.isVersionIncompatible
      = false ∧
    (runHandshake mismatchReq plainExt .allow []).outcome = .TimedOut := by
  refine ⟨by decide, by decide, by decide⟩

/-- C4 (amended): whenever the protocol version of the server exceeds what the
extension supports, the handshake never resolves as Connected, for every user
signal including Allow; the confirmation page visibly shows the version mismatch
banner; and the request resolves as TimedOut carrying the connection timeout error,
not as a distinct VersionIncompatible outcome. -/
theorem mismatch_never_connects (req : ConnectionRequest) (ext : ExtensionState)
    (user : UserSignal) (ctx : List String)
    (hver : compatible req.protocolVersion ext.extensionVersion = false) :
    (runHandshake req ext user ctx).outcome.isConnected = false ∧
    (runHandshake req ext user ctx).outcome = .TimedOut ∧
    (runHandshake req ext user ctx).page.dialogs
      = [.versionBanner versionBannerText] ∧
    (runHandshake req ext user ctx).errorText = some timeoutMessage := by
  unfold runHandshake
  simp [hver, HandshakeOutcome.isConnected]

/-- Witness for C4: the concrete override of protocol version 1000 from the
repository test, with a user pressing Allow. -/
theorem mismatch_never_connects_witness :
    compatible mismatchReq.protocolVersion plainExt.extensionVersion = false ∧
    ((runHandshake mismatchReq plainExt .allow []).outcome.isConnected = false ∧
      (runHandshake mismatchReq plainExt .allow []).outcome = .TimedOut ∧
      (runHandshake mismatchReq plainExt .allow []).page.dialogs
        = [.versionBanner versionBannerText] ∧
      (runHandshake mismatchReq plainExt .allow []).errorText
        = some timeoutMessage) :=
  ⟨by decide, mismatch_never_connects mismatchReq plainExt .allow [] (by decide)⟩

/-- C5: on the dialog-rendering path (no token bypass, compatible versions) the
confirmation UI variant is determined exclusively by the requested capability:
direct-navigate renders exactly the Allow/Reject confirmation for the specific
target URL, tab-select renders exactly the tab chooser, and no run of the engine
ever renders both variants on the same page. -/
theorem ui_variant_by_capability (req : ConnectionRequest) (ext : ExtensionState)
    (user : UserSignal) (ctx : List String)
    (htok : tokenBypass req ext = false)
    (hver : compatible req.protocolVersion ext.extensionVersion = true) :
    (req.requestedCapability = .directNavigate →
      (runHandshake req ext user ctx).page.dialogs
        = [.allowRejectDialog req.targetUrl]) ∧
    (req.requestedCapability = .tabSelect →
      (runHandshake req ext user ctx).page.dialogs = [.tabChooserDialog]) ∧
    ((runHandshake req ext user ctx).page.dialogs.any UIElement.isAllowReject &&
      (runHandshake req ext user ctx).page.dialogs.any UIElement.isTabChooser)
      = false := by
  refine ⟨?_, ?_, ?_⟩
  · intro hcap
    unfold runHandshake
    cases user <;> simp [hver, htok, hcap]
  · intro hcap
    unfold runHandshake
    cases user <;> simp [hver, htok, hcap]
  · unfold runHandshake
    cases hcap : req.requestedCapability <;> cases user <;>
      simp [hver, htok, hcap, UIElement.isAllowReject, UIElement.isTabChooser]

/-- Witness for C5: a concrete direct-navigate request renders exactly the
Allow/Reject dialog and never both variants. -/
theorem ui_variant_by_capability_witness :
    tokenBypass plainNavReq plainExt = false ∧
    compatible plainNavReq.protocolVersion plainExt.extensionVersion = true ∧
    ((plainNavReq.requestedCapability = .directNavigate →
      (runHandshake plainNavReq plainExt .allow []).page.dialogs
        = [.allowRejectDialog plainNavReq.targetUrl]) ∧
    (plainNavReq.requestedCapability = .tabSelect →
      (runHandshake plainNavReq plainExt .allow []).page.dialogs
        = [.tabChooserDialog]) ∧
    ((runHandshake plainNavReq plainExt .allow []).page.dialogs.any
        UIElement.isAllowReject &&
      (runHandshake plainNavReq plainExt .allow []).page.dialogs.any
        UIElement.isTabChooser) = false) :=
  ⟨by decide, by decide,
    ui_variant_by_capability plainNavReq plainExt .allow [] (by decide) (by decide)⟩

/-- C8: the exit code of the CLI open action is 0 exactly when the handshake of the
invoked action reaches a terminal Connected outcome; on every other outcome the
exit code is 1 and the failure message of the handshake is printed to the error
stream. -/
theorem open_cli_exit_code (req : ConnectionRequest) (ext : ExtensionState)
    (user : UserSignal) (ctx : List String) :
    ((runOpenCli req ext user ctx).exitCode = 0 ↔
      (runHandshake req ext user ctx).outcome.isConnected = true) ∧
    ((runHandshake req ext user ctx).outcome.isConnected = false →
      (runOpenCli req ext user ctx).exitCode = 1 ∧
      (runOpenCli req ext user ctx).stderrText
        = ((runHandshake req ext user ctx).errorText).getD ("")) := by
  unfold runOpenCli
  by_cases h : (runHandshake req ext user ctx).outcome.isConnected = true <;>
    simp [h]

/-- Witness for C8: a concrete failing open invocation (no extension response) exits
with code 1 and the timeout message on the error stream, and a concrete approved
invocation exits with code 0. -/
theorem open_cli_exit_code_witness :
    (((runOpenCli plainNavReq plainExt .noResponse []).exitCode = 0 ↔
      (runHandshake plainNavReq plainExt .noResponse []).outcome.isConnected
        = true) ∧
    ((runHandshake plainNavReq plainExt .noResponse []).outcome.isConnected
        = false →
      (runOpenCli plainNavReq plainExt .noResponse []).exitCode = 1 ∧
      (runOpenCli plainNavReq plainExt .noResponse []).stderrText
        = ((runHandshake plainNavReq plainExt .noResponse []).errorText).getD (""))) :=
  open_cli_exit_code plainNavReq plainExt .noResponse []

/-- C9: every run of the handshake engine, and every CLI open invocation, opens its
confirmation page at the fixed reserved endpoint under the constant extension
identity, with the handshake parameters carried in the query: the protocol version
and the capability name occur in the query string. -/
theorem confirmation_page_endpoint (req : ConnectionRequest) (ext : ExtensionState)
    (user : UserSignal) (ctx : List String) :
    (runHandshake req ext user ctx).page.url
      = "chrome-extension://jakfalbnbhgkpmoaakfflhflbfpkailf/connect.html" ++ "?" ++
        queryString req ∧
    (runOpenCli req ext user ctx).page.url
      = "chrome-extension://jakfalbnbhgkpmoaakfflhflbfpkailf/connect.html" ++ "?" ++
        queryString req ∧
    containsStr (queryString req) (toString req.protocolVersion) ∧
    containsStr (queryString req) (capabilityName req.requestedCapability) := by
  refine ⟨?_, ?_,
    ⟨"protocolVersion=",
      "&capability=" ++ capabilityName req.requestedCapability ++
        tokenPart req.authToken, ?_⟩,
    ⟨"protocolVersion=" ++ toString req.protocolVersion ++ "&capability=",
      tokenPart req.authToken, ?_⟩⟩
  · unfold runHandshake
    cases hver : compatible req.protocolVersion ext.extensionVersion <;>
      cases hb : tokenBypass req ext <;> cases user <;>
        simp [hver, hb, connectEndpoint]
  · unfold runOpenCli runHandshake
    cases hver : compatible req.protocolVersion ext.extensionVersion <;>
      cases hb : tokenBypass req ext <;> cases user <;>
        simp [hver, hb, connectEndpoint, HandshakeOutcome.isConnected]
  · simp [queryString, String.append_assoc]
  · simp [queryString, String.append_assoc]

/-- C10: a tab-select handshake that reaches Connected adds exactly the confirmation
page to the browser context and closes none of the pre-existing pages: a context of
k pages holds k plus one pages when the confirmation page appears and still k plus
one pages after the Connected outcome is returned, with the original pages intact. -/
theorem tab_select_adds_one_page (req : ConnectionRequest) (ext : ExtensionState)
    (ctx : List String)
    (hcap : req.requestedCapability = .tabSelect)
    (htok : tokenBypass req ext = false)
    (hver : compatible req.protocolVersion ext.extensionVersion = true) :
    (runHandshake req ext .allow ctx).outcome.isConnected = true ∧
    (runHandshake req ext .allow ctx).contextAtConfirmation
      = ctx ++ [(runHandshake req ext .allow ctx).page.url] ∧
    (runHandshake req ext .allow ctx).contextAfter
      = ctx ++ [(runHandshake req ext .allow ctx).page.url] ∧
    (runHandshake req ext .allow ctx).contextAtConfirmation.length
      = ctx.length + 1 ∧
    (runHandshake req ext .allow ctx).contextAfter.length = ctx.length + 1 := by
  unfold runHandshake
  simp [hver, htok, hcap, HandshakeOutcome.isConnected]

/-- Witness for C10: a concrete tab-select handshake over a context of three pages
yields four pages at confirmation time and four pages after the Connected outcome. -/
theorem tab_select_adds_one_page_witness :
    tabSelectReq.requestedCapability = .tabSelect ∧
    tokenBypass tabSelectReq plainExt = false ∧
    compatible tabSelectReq.protocolVersion plainExt.extensionVersion = true ∧
    ((runHandshake tabSelectReq plainExt .allow ["a", "b", "c"]).outcome.isConnected
        = true ∧
    (runHandshake tabSelectReq plainExt .allow ["a", "b", "c"]).contextAtConfirmation
      = ["a", "b", "c"] ++
        [(runHandshake tabSelectReq plainExt .allow ["a", "b", "c"]).page.url] ∧
    (runHandshake tabSelectReq plainExt .allow ["a", "b", "c"]).contextAfter
      = ["a", "b", "c"] ++
        [(runHandshake tabSelectReq plainExt .allow ["a", "b", "c"]).page.url] ∧
    (runHandshake tabSelectReq plainExt .allow
        ["a", "b", "c"]).contextAtConfirmation.length = ["a", "b", "c"].length + 1 ∧
    (runHandshake tabSelectReq plainExt .allow ["a", "b", "c"]).contextAfter.length
      = ["a", "b", "c"].length + 1) :=
  ⟨by decide, by decide, by decide,
    tab_select_adds_one_page tabSelectReq plainExt ["a", "b", "c"]
      (by decide) (by decide) (by decide)⟩

/-- Helper: when a matching live session exists, findOrCreate returns it with the
registry state unchanged. -/
theorem findOrCreate_of_found (st : RegistryState) (ch dir : String) (s : Session)
    (h : findLive st ch dir = some s) : findOrCreate st ch dir = (s, st) := by
  unfold findOrCreate
  rw [h]

/-- Helper: right after a spawn, the freshly recorded session is found as the live
match for the same browser identity. -/
theorem findLive_after_spawn (st : RegistryState) (ch dir : String)
    (hf : findLive st ch dir = none) :
    findLive (findOrCreate st ch dir).2 ch dir = some (findOrCreate st ch dir).1 := by
  unfold findOrCreate
  rw [hf]
  unfold findLive
  apply List.find?_cons_of_pos
  simp [matchesLive, List.contains_cons]

/-- C6: calling findOrCreate a second time with the identical browser channel and
user data directory, with the daemon created by the first call still alive, returns
the same Session and the same registry state, and in particular spawns no second
daemon process: the spawn count does not change. -/
theorem findOrCreate_idempotent (st : RegistryState) (ch dir : String) :
    findOrCreate (findOrCreate st ch dir).2 ch dir = findOrCreate st ch dir ∧
    ((findOrCreate (findOrCreate st ch dir).2 ch dir).2).spawnCount
      = ((findOrCreate st ch dir).2).spawnCount := by
  have key : findOrCreate (findOrCreate st ch dir).2 ch dir
      = findOrCreate st ch dir := by
    cases hf : findLive st ch dir with
    | some s =>
      rw [findOrCreate_of_found st ch dir s hf, findOrCreate_of_found st ch dir s hf]
    | none =>
      rw [findOrCreate_of_found _ ch dir _ (findLive_after_spawn st ch dir hf)]
  exact ⟨key, by rw [key]⟩

/-- C7: stopAll over a session directory holding a stale entry (daemon already
dead) between live entries processes every entry, leaves every daemon stopped and
every socket file removed including the stale one, records no failure for the stale
entry, and reports the collected failures in aggregate after all attempts, never
aborting the remaining sessions. -/
theorem stopAll_handles_stale (front back : List SessionEntry) (e : SessionEntry)
    (hdead : e.status = .dead) :
    (stopAll (front ++ e :: back)).1.length = (front ++ e :: back).length ∧
    (stopAll (front ++ e :: back)).1.all
      (fun r => r.finalStatus == DaemonStatus.dead && r.socketRemoved) = true ∧
    (stopOne e).failure = none ∧
    (stopAll (front ++ e :: back)).2
      = (front ++ e :: back).filterMap (fun x => (stopOne x).failure) := by
  refine ⟨?_, ?_, ?_, ?_⟩
  · simp [stopAll]
  · rw [List.all_eq_true]
    intro r hr
    rw [show (stopAll (front ++ e :: back)).1 = (front ++ e :: back).map stopOne
      from rfl, List.mem_map] at hr
    obtain ⟨x, _, rfl⟩ := hr
    cases hx : x.status <;> simp [stopOne, hx]
  · simp [stopOne, hdead]
  · rw [show (stopAll (front ++ e :: back)).2
      = ((front ++ e :: back).map stopOne).filterMap (fun r => r.failure) from rfl,
      List.filterMap_map]
    rfl

/-- Witness for C7: a directory of three sessions, the middle one stale, the last
one unresponsive: all three are processed, all sockets removed, the stale entry
records no failure, and the aggregate lists exactly the unresponsive failure. -/
theorem stopAll_handles_stale_witness :
    staleEntry.status = .dead ∧
    ((stopAll (liveEntriesFront ++ staleEntry :: liveEntriesBack)).1.length
      = (liveEntriesFront ++ staleEntry :: liveEntriesBack).length ∧
    (stopAll (liveEntriesFront ++ staleEntry :: liveEntriesBack)).1.all
      (fun r => r.finalStatus == DaemonStatus.dead && r.socketRemoved) = true ∧
    (stopOne staleEntry).failure = none ∧
    (stopAll (liveEntriesFront ++ staleEntry :: liveEntriesBack)).2
      = (liveEntriesFront ++ staleEntry :: liveEntriesBack).filterMap
          (fun x => (stopOne x).failure)) :=
  ⟨by decide,
    stopAll_handles_stale liveEntriesFront liveEntriesBack staleEntry (by decide)⟩

end ExtensionBridge
